import Mathlib

/-!
Verification of the yin-bot persistence layer.

This file shallow-embeds the code of `src/cogs/utils/db_utils.py` (the
`PostgresController` store, its SQL statements and the asyncpg driver behaviour
they rely on) together with the one store operation that `src/cogs/admin.py`
calls but whose body is not among the sources (`set_prefix`, modelled from the
spec).  The database is modelled as explicit state (`DB`), each store operation
as a function `DB → Except DbErr DB` (or a query result); a raised Python or
backend exception is an `Except.error`.

Modelling notes, justified against the sources:

* The asyncpg driver prepares every statement and refuses to bind when the
  number of supplied arguments differs from the number of `$n` placeholders
  (`checkArgs`).  This matters for `insert_modaction`, whose SQL has three
  placeholders but which is called with four arguments.

* A backend array value is kept the way the backend itself keeps it: a
  dimension vector plus the row-major flat element data (`PgArr`).  asyncpg
  encodes a nested Python list into exactly this shape and decodes it back.
  The containment operator `@>` compares element data only, ignoring
  dimensionality, and `||` is `array_cat` with its dimension rules; both are
  modelled accordingly.

* Timestamp columns (`logtime`, `addtime`) have backend-side defaults, are
  never read by any modelled operation and are omitted from the row types.

* The moderation `action` argument is an enumeration member whose integer
  `.Value` is what reaches the SQL layer; the enumeration itself lives in a
  module that is not among the sources, so the operation takes the integer
  value directly.
-/

namespace YinBot

/-- Faults surfaced by the embedded driver, backend or interpreter:
`wrongArgCount` is asyncpg refusing to run a prepared statement whose
placeholder count differs from the number of supplied arguments;
`uniqueViolation` and `notNullViolation` are backend constraint errors;
`arrayDimMismatch` is the backend rejecting an `array_cat` of incompatible
arrays; `pyAttributeError` is Python raising AttributeError (attribute access
on `None`); `pyValueError` is Python raising ValueError (`list.remove` of an
element that is not in the list). -/
inductive DbErr where
  | wrongArgCount (expected got : Nat)
  | uniqueViolation
  | notNullViolation
  | arrayDimMismatch
  | pyAttributeError
  | pyValueError
deriving DecidableEq

/-- A backend array value: the dimension vector and the row-major flat element
data.  A one-dimensional array `{5,7}` is `⟨[2], [5, 7]⟩`; the two-dimensional
`{{7}}` is `⟨[1, 1], [7]⟩`; the empty array is `⟨[], []⟩`. -/
structure PgArr where
  dims : List Int
  data : List Int
deriving DecidableEq

/-- Encoding of a flat Python list of integers as a backend array, as asyncpg
performs it: the empty list becomes the empty array, a list of k integers a
one-dimensional array of extent k. -/
def pgMkFlat (xs : List Int) : PgArr :=
  if xs.isEmpty then ⟨[], []⟩ else ⟨[(xs.length : Int)], xs⟩

/-- Encoding of the Python value `[xs]` — a list whose single member is the
list `xs` — as a backend array: a 1×k two-dimensional array, or the empty
array when `xs` is empty (the backend normalises every array with a zero
extent to the empty array). -/
def pgWrap (xs : List Int) : PgArr :=
  if xs.isEmpty then ⟨[], []⟩ else ⟨[1, (xs.length : Int)], xs⟩

/-- The backend array containment operator `@>`: every element of the right
array appears among the elements of the left one.  Containment compares
element data only and ignores dimensionality. -/
def pgContains (a b : PgArr) : Bool :=
  b.data.all fun n => a.data.contains n

/-- The backend `||` operator (`array_cat`): an empty operand yields the other
operand; arrays of equal dimensionality concatenate along the first dimension
when the remaining extents agree; an array of one lesser dimensionality is
pushed as a first or last element when its extents match; anything else is an
error. -/
def arrayCat (a b : PgArr) : Except DbErr PgArr :=
  if a.data.isEmpty then .ok b
  else if b.data.isEmpty then .ok a
  else if a.dims.length == b.dims.length then
    match a.dims, b.dims with
    | da :: ta, dbb :: tb =>
      if ta == tb then .ok ⟨(da + dbb) :: ta, a.data ++ b.data⟩
      else .error DbErr.arrayDimMismatch
    | _, _ => .error DbErr.arrayDimMismatch
  else if a.dims.length == b.dims.length + 1 then
    match a.dims with
    | da :: ta =>
      if ta == b.dims then .ok ⟨(da + 1) :: ta, a.data ++ b.data⟩
      else .error DbErr.arrayDimMismatch
    | _ => .error DbErr.arrayDimMismatch
  else if b.dims.length == a.dims.length + 1 then
    match b.dims with
    | dbb :: tb =>
      if tb == a.dims then .ok ⟨(dbb + 1) :: tb, a.data ++ b.data⟩
      else .error DbErr.arrayDimMismatch
    | _ => .error DbErr.arrayDimMismatch
  else .error DbErr.arrayDimMismatch

/-- Python `role_list.remove(role_id)` applied to the value fetchval decoded
from an `assignableroles` cell.  A one-dimensional array decodes to the flat
list of its integers, and `remove` deletes the first occurrence of `role_id`,
raising ValueError when it is absent.  Any other shape decodes to a Python
list whose members are sublists (or to the empty list), so no member compares
equal to the integer and `remove` raises ValueError. -/
def pyListRemove (a : PgArr) (role_id : Int) : Except DbErr (List Int) :=
  match a.dims with
  | [_] =>
    if a.data.contains role_id then .ok (a.data.erase role_id)
    else .error DbErr.pyValueError
  | _ => .error DbErr.pyValueError

/-- A row of the `moderation` table created by `make_tables`:
`serverid BIGINT, modid BIGINT, targetid BIGINT, action SMALLINT,
logtime TIMESTAMP DEFAULT current_timestamp,
PRIMARY KEY (serverid, modid, targetid, action)`. -/
structure ModRow where
  serverid : Int
  modid : Int
  targetid : Int
  action : Int
deriving DecidableEq

/-- Equality on the primary key `(serverid, modid, targetid, action)` of the
`moderation` table. -/
def ModRow.sameKey (a b : ModRow) : Bool :=
  a.serverid == b.serverid && a.modid == b.modid &&
    a.targetid == b.targetid && a.action == b.action

/-- A row of the `servers` table created by `make_tables`:
`serverid BIGINT PRIMARY KEY, prefix varchar(2), assignableroles bigint ARRAY,
filterwordswhite varchar ARRAY, filterwordsblack varchar ARRAY,
blacklistchannels integer ARRAY, r9kchannels integer ARRAY,
addtime TIMESTAMP DEFAULT current_timestamp`.  The field `pfx` embeds the
column named `prefix` in the source schema. -/
structure ServerRow where
  serverid : Int
  pfx : String
  assignableroles : PgArr
  filterwordswhite : List String
  filterwordsblack : List String
  blacklistchannels : List Int
  r9kchannels : List Int
deriving DecidableEq

/-- The store state: the two tables `make_tables` creates in the `yinbot`
schema, each a sequence of rows in insertion order. -/
structure DB where
  moderation : List ModRow
  servers : List ServerRow
deriving DecidableEq

/-- A parameter bound to a statement placeholder: an integer, a string, or an
array value. -/
inductive SqlParam where
  | pint (n : Int)
  | pstr (s : String)
  | parr (a : PgArr)
deriving DecidableEq

/-- Driver-side binding check: asyncpg prepares each statement and raises
before executing anything when the number of supplied arguments differs from
the number of placeholders the server reported for the query. -/
def checkArgs (placeholders : Nat) (args : List SqlParam) : Except DbErr Unit :=
  if args.length == placeholders then .ok ()
  else .error (DbErr.wrongArgCount placeholders args.length)

/-- A backend row handle: the ordered list of named column values.  `values`
is the ordered value view, as asyncpg `Record.values()` returns it. -/
structure Record where
  fields : List (String × SqlParam)
deriving DecidableEq

/-- Ordered column values of a row handle. -/
def Record.values (r : Record) : List SqlParam :=
  r.fields.map fun kv => kv.2

/-- Embedding of `parse_record`: `tuple(record.values())` when the handle is a
row, and `None` when it is not a row (the AttributeError that `None.values()`
raises is caught and turned into `None`). -/
def parse_record (record : Option Record) : Option (List SqlParam) :=
  match record with
  | some r => some (Record.values r)
  | none => none

/-- Embedding of `PostgresController.insert_modaction`.  The statement is
`INSERT INTO {schema}.moderation VALUES ($1, $2, $3);` — three placeholders —
while the call is `pool.execute(sql, guild_id, mod_id, target_id,
action_type.Value)` — four arguments — so the driver rejects every call
before anything reaches the table.  (Were the binding accepted, the
three-value insert would leave the `action` primary-key column NULL and the
backend would reject the row, as recorded in the unreachable branch.) -/
def insert_modaction (_db : DB) (guild_id mod_id target_id action_value : Int) :
    Except DbErr DB :=
  match checkArgs 3 [.pint guild_id, .pint mod_id, .pint target_id,
      .pint action_value] with
  | .error e => .error e
  | .ok _ => .error DbErr.notNullViolation

/-- Backend semantics of a four-value insert
`INSERT INTO {schema}.moderation VALUES ($1, $2, $3, $4)` — the statement the
surrounding code evidently intends.  The table's primary key
`(serverid, modid, targetid, action)` makes a duplicate key a unique
violation, and the source SQL has no ON CONFLICT clause that would downgrade
the violation to a no-op (contrast `add_server`). -/
def moderationInsert4 (db : DB) (r : ModRow) : Except DbErr DB :=
  if db.moderation.any (fun s => ModRow.sameKey s r) then
    .error DbErr.uniqueViolation
  else .ok { db with moderation := db.moderation ++ [r] }

/-- The row `add_server` inserts: values `(guild_id, '-', [], [], [], [], [])`
for the first seven columns, `addtime` left to its backend default. -/
def defaultServer (guild_id : Int) : ServerRow :=
  { serverid := guild_id, pfx := "-", assignableroles := ⟨[], []⟩,
    filterwordswhite := [], filterwordsblack := [],
    blacklistchannels := [], r9kchannels := [] }

/-- Embedding of `PostgresController.add_server`: the statement
`INSERT INTO {schema}.servers VALUES ($1, $2, $3, $4, $5, $6, $7)
ON CONFLICT (serverid) DO nothing;` executed with arguments
`(guild_id, '-', [], [], [], [], [])`.  On a `serverid` conflict the insert is
a no-op; otherwise one row with the default values is appended. -/
def add_server (db : DB) (guild_id : Int) : Except DbErr DB :=
  match checkArgs 7 [.pint guild_id, .pstr "-", .parr ⟨[], []⟩, .parr ⟨[], []⟩,
      .parr ⟨[], []⟩, .parr ⟨[], []⟩, .parr ⟨[], []⟩] with
  | .error e => .error e
  | .ok _ =>
    if db.servers.any (fun r => r.serverid == guild_id) then .ok db
    else .ok { db with servers := db.servers ++ [defaultServer guild_id] }

/-- Embedding of `PostgresController.get_server_prefix`: the query
`SELECT serverid, prefix FROM {schema}.servers;` followed by the loop that
builds `prefix_dict[row['serverid']] = row['prefix']`.  Since `serverid` is
the primary key, the keys are pairwise distinct and the dictionary is the
association list of `(serverid, prefix)` pairs in row order, looked up with
`List.lookup`. -/
def get_server_prefix (db : DB) : List (Int × String) :=
  db.servers.map fun r => (r.serverid, r.pfx)

/-- Embedding of `PostgresController.is_role_assignable`: the query
`SELECT * FROM {schema}.servers WHERE serverid = $1 AND assignableroles @> $2;`
fetched with `fetchrow(sql, guild_id, [role_id])`, then `True if row else
False`. -/
def is_role_assignable (db : DB) (guild_id role_id : Int) : Except DbErr Bool :=
  match checkArgs 2 [.pint guild_id, .parr (pgMkFlat [role_id])] with
  | .error e => .error e
  | .ok _ =>
    .ok ((db.servers.find? fun r =>
      r.serverid == guild_id &&
        pgContains r.assignableroles (pgMkFlat [role_id])).isSome)

/-- One pass of the statement
`UPDATE {schema}.servers SET assignableroles = assignableroles || $1
WHERE serverid = $2;`: every row matching the WHERE clause has the SET
expression applied; an error while evaluating `array_cat` aborts the whole
statement. -/
def updateAddRole (guild_id role_id : Int) :
    List ServerRow → Except DbErr (List ServerRow)
  | [] => .ok []
  | r :: rs =>
    if r.serverid == guild_id then
      match arrayCat r.assignableroles (pgMkFlat [role_id]) with
      | .error e => .error e
      | .ok a =>
        match updateAddRole guild_id role_id rs with
        | .error e => .error e
        | .ok rest => .ok ({ r with assignableroles := a } :: rest)
    else
      match updateAddRole guild_id role_id rs with
      | .error e => .error e
      | .ok rest => .ok (r :: rest)

/-- Embedding of `PostgresController.add_assignable_role`: the UPDATE above
executed with `execute(sql, [role_id], guild_id)` — the first parameter is the
one-element array `[role_id]`. -/
def add_assignable_role (db : DB) (guild_id role_id : Int) : Except DbErr DB :=
  match checkArgs 2 [.parr (pgMkFlat [role_id]), .pint guild_id] with
  | .error e => .error e
  | .ok _ =>
    match updateAddRole guild_id role_id db.servers with
    | .error e => .error e
    | .ok rows => .ok { db with servers := rows }

/-- The statement `UPDATE {schema}.servers SET assignableroles = $1
WHERE serverid = $2;`: every row whose `serverid` matches gets the supplied
array value. -/
def setRoles (db : DB) (guild_id : Int) (a : PgArr) : DB :=
  { db with servers := db.servers.map fun r =>
      if r.serverid == guild_id then { r with assignableroles := a } else r }

/-- Embedding of `PostgresController.remove_assignable_role`:

* `role_list = fetchval(SELECT assignableroles FROM {schema}.servers WHERE
  serverid = $1 AND assignableroles @> $2, guild_id, [role_id])` — the
  `assignableroles` value of the first matching row, or `None` when no row
  matches;
* `role_list.remove(role_id)` — AttributeError when `role_list` is `None`,
  ValueError when no member of the decoded list equals `role_id`;
* `execute(UPDATE {schema}.servers SET assignableroles = $1 WHERE
  serverid = $2, [role_list], guild_id)` — the bound parameter is
  `[role_list]`, the list wrapped in one more list, which encodes as the 1×k
  two-dimensional array `pgWrap role_list`. -/
def remove_assignable_role (db : DB) (guild_id role_id : Int) :
    Except DbErr DB :=
  match checkArgs 2 [.pint guild_id, .parr (pgMkFlat [role_id])] with
  | .error e => .error e
  | .ok _ =>
    match db.servers.find? (fun r =>
        r.serverid == guild_id &&
          pgContains r.assignableroles (pgMkFlat [role_id])) with
    | none => .error DbErr.pyAttributeError
    | some r =>
      match pyListRemove r.assignableroles role_id with
      | .error e => .error e
      | .ok ys =>
        match checkArgs 2 [.parr (pgWrap ys), .pint guild_id] with
        | .error e => .error e
        | .ok _ => .ok (setRoles db guild_id (pgWrap ys))

/-- Embedding of `PostgresController.get_assignable_roles`: the query
`SELECT assignableroles FROM {schema}.servers WHERE serverid = $1;` fetched
with `fetchval`, which yields the cell of the first matching row, or `None`
when the guild has no row. -/
def get_assignable_roles (db : DB) (guild_id : Int) :
    Except DbErr (Option PgArr) :=
  match checkArgs 1 [.pint guild_id] with
  | .error e => .error e
  | .ok _ =>
    .ok ((db.servers.find? fun r => r.serverid == guild_id).map
      fun r => r.assignableroles)

/-- Modelled from the spec: `set_prefix` is invoked by `Admin.change`
(`src/cogs/admin.py`) but its body is not among the repository sources.
Spec: "set_prefix(guild_id, prefix): ... Updates the row; signals failure
(not found, or underlying storage error) distinctly from success."  The
returned Bool is the success signal the caller tests (`if success:`); a
not-found guild yields `false`, an update of the existing row yields
`true`. -/
def set_prefix (db : DB) (guild_id : Int) (p : String) :
    Except DbErr (DB × Bool) :=
  if db.servers.any (fun r => r.serverid == guild_id) then
    .ok ({ db with servers := db.servers.map fun r =>
        if r.serverid == guild_id then { r with pfx := p } else r }, true)
  else .ok (db, false)

/-- A store holding one server row: guild 1 with prefix `-` and the
one-dimensional assignable-role array `{5, 7}`. -/
def dbRoles57 : DB :=
  ⟨[], [{ serverid := 1, pfx := "-", assignableroles := pgMkFlat [5, 7],
          filterwordswhite := [], filterwordsblack := [],
          blacklistchannels := [], r9kchannels := [] }]⟩

/-- The store `dbRoles57` after `remove_assignable_role(1, 5)`: the stored
array is the two-dimensional `{{7}}`. -/
def dbRoles57After : DB :=
  ⟨[], [{ serverid := 1, pfx := "-", assignableroles := ⟨[1, 1], [7]⟩,
          filterwordswhite := [], filterwordsblack := [],
          blacklistchannels := [], r9kchannels := [] }]⟩

/-- A store holding one server row: guild 1 with the one-element
assignable-role array `{5}`. -/
def dbRole5 : DB :=
  ⟨[], [{ serverid := 1, pfx := "-", assignableroles := pgMkFlat [5],
          filterwordswhite := [], filterwordsblack := [],
          blacklistchannels := [], r9kchannels := [] }]⟩

/-- The store `dbRole5` after `add_assignable_role(1, 5)`: the array is
`{5, 5}`. -/
def dbRole55 : DB :=
  ⟨[], [{ serverid := 1, pfx := "-", assignableroles := ⟨[2], [5, 5]⟩,
          filterwordswhite := [], filterwordsblack := [],
          blacklistchannels := [], r9kchannels := [] }]⟩

/-- The store `dbRole55` after `remove_assignable_role(1, 5)`: the array is
the two-dimensional `{{5}}`. -/
def dbRole5Wrapped : DB :=
  ⟨[], [{ serverid := 1, pfx := "-", assignableroles := ⟨[1, 1], [5]⟩,
          filterwordswhite := [], filterwordsblack := [],
          blacklistchannels := [], r9kchannels := [] }]⟩

/-! ## Helper lemmas -/

@[simp]
theorem pgMkFlat_data (xs : List Int) : (pgMkFlat xs).data = xs := by
  cases xs <;> simp [pgMkFlat]

@[simp]
theorem pgWrap_data (xs : List Int) : (pgWrap xs).data = xs := by
  cases xs <;> simp [pgWrap]

@[simp]
theorem pgContains_mkFlat_singleton (ys : List Int) (x : Int) :
    pgContains (pgMkFlat ys) (pgMkFlat [x]) = ys.contains x := by
  simp [pgContains]

@[simp]
theorem pgContains_wrap_singleton (ys : List Int) (x : Int) :
    pgContains (pgWrap ys) (pgMkFlat [x]) = ys.contains x := by
  simp [pgContains]

theorem find?_append_of_all_neg {α : Type} (p : α → Bool) (l₁ l₂ : List α)
    (h : ∀ x ∈ l₁, p x = false) : (l₁ ++ l₂).find? p = l₂.find? p := by
  have h1 : l₁.find? p = none := List.find?_eq_none.2 fun x hx => by simp [h x hx]
  simp [List.find?_append, h1]

theorem updateAddRole_skip (g ri : Int) (l : List ServerRow)
    (h : ∀ s ∈ l, (s.serverid == g) = false) :
    updateAddRole g ri l = Except.ok l := by
  induction l with
  | nil => rfl
  | cons r rs ih =>
    have hr := h r (List.mem_cons_self r rs)
    have ih' := ih fun s hs => h s (List.mem_cons_of_mem r hs)
    simp [updateAddRole, hr, ih']

theorem updateAddRole_append (g ri : Int) (l₁ l₂ : List ServerRow)
    (h : ∀ s ∈ l₁, (s.serverid == g) = false) :
    updateAddRole g ri (l₁ ++ l₂) =
      (updateAddRole g ri l₂).map fun rest => l₁ ++ rest := by
  induction l₁ with
  | nil => cases hu : updateAddRole g ri l₂ <;> simp [Except.map, hu]
  | cons r rs ih =>
    have hr := h r (List.mem_cons_self r rs)
    have ih' := ih fun s hs => h s (List.mem_cons_of_mem r hs)
    cases hu : updateAddRole g ri l₂ <;>
      simp_all [updateAddRole, hr, Except.map]

theorem arrayCat_flat_snoc (xs : List Int) (x : Int) :
    arrayCat (pgMkFlat xs) (pgMkFlat [x]) = Except.ok (pgMkFlat (xs ++ [x])) := by
  cases xs with
  | nil => rfl
  | cons y ys =>
    simp [pgMkFlat, arrayCat]

theorem pyListRemove_flat_snoc (xs : List Int) (x : Int)
    (hx : xs.contains x = false) :
    pyListRemove (pgMkFlat (xs ++ [x])) x = Except.ok xs := by
  have hne : (xs ++ [x]).isEmpty = false := by cases xs <;> rfl
  have hx' : x ∉ xs := by simpa using hx
  simp [pyListRemove, pgMkFlat, hne, List.erase_append_right _ hx']

theorem map_update_skip (g : Int) (a : PgArr) (l : List ServerRow)
    (h : ∀ s ∈ l, (s.serverid == g) = false) :
    (l.map fun r =>
      if r.serverid == g then { r with assignableroles := a } else r) = l := by
  induction l with
  | nil => rfl
  | cons r rs ih =>
    have hr : ¬ (r.serverid = g) := by
      simpa using h r (List.mem_cons_self r rs)
    have ih' := ih fun s hs => h s (List.mem_cons_of_mem r hs)
    simp [hr]
    simpa using ih'

theorem lookup_pfx_of_any (g : Int) (p : String) (l : List ServerRow)
    (h : l.any (fun r => r.serverid == g) = true) :
    ((l.map fun r => if r.serverid == g then { r with pfx := p } else r).map
        fun r => (r.serverid, r.pfx)).lookup g = some p := by
  induction l with
  | nil => simp at h
  | cons r rs ih =>
    by_cases hr : r.serverid = g
    · simp [hr, List.lookup_cons]
    · have h' : rs.any (fun r => r.serverid == g) = true := by
        simp only [List.any_cons, Bool.or_eq_true, beq_iff_eq] at h
        exact h.resolve_left hr
      have hg : (g == r.serverid) = false := by
        simp [Ne.symm hr]
      simp [hr, List.lookup_cons, hg]
      simpa using ih h'

/-! ## Claim theorems -/

/-- Claim C1 (code_bug): `insert_modaction` never inserts a row.  Its SQL has
three placeholders while four arguments are bound, so the driver rejects
every call with an argument-count error; no `ModerationAction` row carrying
the four values is ever created. -/
theorem insert_modaction_never_inserts (db : DB)
    (guild_id mod_id target_id action_value : Int) :
    insert_modaction db guild_id mod_id target_id action_value =
      Except.error (DbErr.wrongArgCount 3 4) := rfl

/-- Claim C2 (code_bug): the "benign duplicate" contract cannot hold.  First,
no call to `insert_modaction` ever succeeds (the driver rejects the four
arguments), so the claim's "successful first call" scenario is unreachable.
Second, even the four-value insert the code evidently intends has no
ON CONFLICT clause, so inserting a row whose composite key is already in the
table raises a unique violation instead of being a no-op. -/
theorem insert_modaction_duplicate_not_benign (db db2 : DB)
    (guild_id mod_id target_id action_value : Int) (r : ModRow)
    (hmem : r ∈ db2.moderation) :
    insert_modaction db guild_id mod_id target_id action_value =
      Except.error (DbErr.wrongArgCount 3 4) ∧
    moderationInsert4 db2 r = Except.error DbErr.uniqueViolation := by
  refine ⟨rfl, ?_⟩
  have hk : ModRow.sameKey r r = true := by simp [ModRow.sameKey]
  have hany : db2.moderation.any (fun s => ModRow.sameKey s r) = true :=
    List.any_eq_true.2 ⟨r, hmem, hk⟩
  simp [moderationInsert4, hany]

/-- Witness for C2 at a concrete input: the empty store for the first
conjunct, and a one-row moderation table receiving its own row again for the
second. -/
theorem insert_modaction_duplicate_not_benign_witness :
    insert_modaction ⟨[], []⟩ 1 2 3 4 =
      Except.error (DbErr.wrongArgCount 3 4) ∧
    moderationInsert4 ⟨[⟨1, 2, 3, 4⟩], []⟩ ⟨1, 2, 3, 4⟩ =
      Except.error DbErr.uniqueViolation :=
  insert_modaction_duplicate_not_benign ⟨[], []⟩ ⟨[⟨1, 2, 3, 4⟩], []⟩
    1 2 3 4 ⟨1, 2, 3, 4⟩ (List.mem_singleton.2 rfl)

/-- Claim C3 (code_bug): on the store holding guild 1 with role array
`{5, 7}`, removing role 5 succeeds but writes back the two-dimensional array
`{{7}}` — the `execute` call binds `[role_list]`, wrapping the list once more
— instead of the claimed sequence `{7}`; a subsequent removal of the
remaining role 7 then crashes with ValueError, because the decoded
two-dimensional value is a list of sublists in which no member equals 7. -/
theorem remove_assignable_role_wraps_array :
    remove_assignable_role dbRoles57 1 5 = Except.ok dbRoles57After ∧
    get_assignable_roles dbRoles57After 1 = Except.ok (some ⟨[1, 1], [7]⟩) ∧
    (⟨[1, 1], [7]⟩ : PgArr) ≠ pgMkFlat [7] ∧
    remove_assignable_role dbRoles57After 1 7 =
      Except.error DbErr.pyValueError :=
  ⟨rfl, rfl, by decide, rfl⟩

/-- Claim C4 (code_bug): when no stored row for the guild contains the role
(in particular when the guild is unknown), the SELECT matches nothing,
`fetchval` yields `None`, and `None.remove(role_id)` raises AttributeError —
an uncontrolled crash, not the claimed descriptive not-present error.  The
error is raised before the UPDATE statement, so the stored sequences are
indeed left unchanged (the returned fault carries no new state). -/
theorem remove_assignable_role_absent_crashes (db : DB) (guild_id role_id : Int)
    (h : ∀ r ∈ db.servers,
      (r.serverid == guild_id &&
        pgContains r.assignableroles (pgMkFlat [role_id])) = false) :
    remove_assignable_role db guild_id role_id =
      Except.error DbErr.pyAttributeError := by
  have hf : db.servers.find? (fun r =>
      r.serverid == guild_id &&
        pgContains r.assignableroles (pgMkFlat [role_id])) = none :=
    List.find?_eq_none.2 fun x hx => by simp [h x hx]
  simp [remove_assignable_role, checkArgs, hf]

/-- Witness for C4 at a concrete input: guild 1 holds role array `{5}`;
removing the never-added role 99 crashes with the AttributeError. -/
theorem remove_assignable_role_absent_crashes_witness :
    remove_assignable_role dbRole5 1 99 =
      Except.error DbErr.pyAttributeError :=
  remove_assignable_role_absent_crashes dbRole5 1 99 (by decide)

/-- Claim C5 (confirmed): under the primary-key invariant (at most one row
per `serverid`), `add_server` creates the default row — prefix `-`, all five
array columns empty — when the guild has no row, is a no-op returning the
unchanged store when it has one, and calling it twice therefore leaves
exactly one row for the guild with the values of the first call; no call
errors. -/
theorem add_server_upsert_idempotent (db : DB) (g : Int)
    (hpk : db.servers.countP (fun r => r.serverid == g) ≤ 1) :
    ((db.servers.any fun r => r.serverid == g) = true →
        add_server db g = Except.ok db ∧
        db.servers.countP (fun r => r.serverid == g) = 1) ∧
    ((db.servers.any fun r => r.serverid == g) = false →
        add_server db g =
          Except.ok { db with servers := db.servers ++ [defaultServer g] } ∧
        add_server { db with servers := db.servers ++ [defaultServer g] } g =
          Except.ok { db with servers := db.servers ++ [defaultServer g] } ∧
        (db.servers ++ [defaultServer g]).countP
          (fun r => r.serverid == g) = 1) := by
  constructor
  · intro h
    refine ⟨by simp [add_server, checkArgs, h], ?_⟩
    have hpos : 0 < db.servers.countP (fun r => r.serverid == g) :=
      List.countP_pos_iff.2 (List.any_eq_true.1 h)
    omega
  · intro h
    have hz : db.servers.countP (fun r => r.serverid == g) = 0 :=
      List.countP_eq_zero.2 fun a ha => by simp [List.any_eq_false.1 h a ha]
    have hd : ((defaultServer g).serverid == g) = true := by simp [defaultServer]
    refine ⟨by simp [add_server, checkArgs, h], ?_, ?_⟩
    · simp [add_server, checkArgs, List.any_append, h, hd]
    · simp [List.countP_append, hz, List.countP_cons, hd]

/-- Witness for C5 at a concrete input: the empty store and guild 1. -/
theorem add_server_upsert_idempotent_witness :
    ((([] : List ServerRow).any fun r => r.serverid == 1) = true →
        add_server ⟨[], []⟩ 1 = Except.ok ⟨[], []⟩ ∧
        ([] : List ServerRow).countP (fun r => r.serverid == 1) = 1) ∧
    ((([] : List ServerRow).any fun r => r.serverid == 1) = false →
        add_server ⟨[], []⟩ 1 = Except.ok ⟨[], [defaultServer 1]⟩ ∧
        add_server ⟨[], [defaultServer 1]⟩ 1 =
          Except.ok ⟨[], [defaultServer 1]⟩ ∧
        (([] : List ServerRow) ++ [defaultServer 1]).countP
          (fun r => r.serverid == 1) = 1) :=
  add_server_upsert_idempotent ⟨[], []⟩ 1 (by decide)

/-- Claim C6 counterexample: guild 1 already holds role 5.  After
`add_assignable_role(1, 5)` the array is `{5, 5}` and `is_role_assignable`
is true; the subsequent `remove_assignable_role(1, 5)` deletes only the
first occurrence and stores `{{5}}`, whose element data still contains 5, so
`is_role_assignable(1, 5)` is still true — not false as the claim states for
every existing guild and role. -/
theorem add_then_remove_role_cex :
    add_assignable_role dbRole5 1 5 = Except.ok dbRole55 ∧
    is_role_assignable dbRole55 1 5 = Except.ok true ∧
    remove_assignable_role dbRole55 1 5 = Except.ok dbRole5Wrapped ∧
    is_role_assignable dbRole5Wrapped 1 5 = Except.ok true :=
  ⟨rfl, rfl, rfl, rfl⟩

theorem add_assignable_role_eq (db : DB) (g ri : Int) :
    add_assignable_role db g ri =
      match updateAddRole g ri db.servers with
      | Except.error e => Except.error e
      | Except.ok rows => Except.ok { db with servers := rows } := rfl

theorem is_role_assignable_eq (db : DB) (g ri : Int) :
    is_role_assignable db g ri =
      Except.ok ((db.servers.find? fun r =>
        r.serverid == g &&
          pgContains r.assignableroles (pgMkFlat [ri])).isSome) := rfl

theorem remove_assignable_role_eq (db : DB) (g ri : Int) :
    remove_assignable_role db g ri =
      match db.servers.find? (fun r =>
          r.serverid == g &&
            pgContains r.assignableroles (pgMkFlat [ri])) with
      | none => Except.error DbErr.pyAttributeError
      | some r =>
        match pyListRemove r.assignableroles ri with
        | Except.error e => Except.error e
        | Except.ok ys => Except.ok (setRoles db g (pgWrap ys)) := rfl

/-- Claim C6 amended (corrected): for a guild whose only row holds a
one-dimensional role array not yet containing the role, the round trip works
as claimed: after `add_assignable_role` the role is assignable, and after
the subsequent `remove_assignable_role` it no longer is (the stored value is
the wrapped array `pgWrap ds`, whose element data no longer contains the
role).  When the role is already present the final query stays true, as the
counterexample shows. -/
theorem add_then_remove_role_roundtrip (mods : List ModRow)
    (pre post : List ServerRow) (row : ServerRow) (g ri : Int) (ds : List Int)
    (hg : row.serverid = g)
    (hpre : ∀ s ∈ pre, (s.serverid == g) = false)
    (hpost : ∀ s ∈ post, (s.serverid == g) = false)
    (hflat : row.assignableroles = pgMkFlat ds)
    (hnot : ds.contains ri = false) :
    add_assignable_role ⟨mods, pre ++ row :: post⟩ g ri =
      Except.ok ⟨mods, pre ++
        { row with assignableroles := pgMkFlat (ds ++ [ri]) } :: post⟩ ∧
    is_role_assignable ⟨mods, pre ++
        { row with assignableroles := pgMkFlat (ds ++ [ri]) } :: post⟩ g ri =
      Except.ok true ∧
    remove_assignable_role ⟨mods, pre ++
        { row with assignableroles := pgMkFlat (ds ++ [ri]) } :: post⟩ g ri =
      Except.ok ⟨mods, pre ++
        { row with assignableroles := pgWrap ds } :: post⟩ ∧
    is_role_assignable ⟨mods, pre ++
        { row with assignableroles := pgWrap ds } :: post⟩ g ri =
      Except.ok false := by
  have hgb : (row.serverid == g) = true := by simp [hg]
  have hnot' : ri ∉ ds := by simpa using hnot
  have hpred : ∀ s ∈ pre, (s.serverid == g &&
      pgContains s.assignableroles (pgMkFlat [ri])) = false :=
    fun s hs => by simp [hpre s hs]
  have hrow : updateAddRole g ri (pre ++ row :: post) =
      Except.ok (pre ++
        { row with assignableroles := pgMkFlat (ds ++ [ri]) } :: post) := by
    rw [updateAddRole_append g ri pre (row :: post) hpre]
    have h1 : updateAddRole g ri (row :: post) =
        Except.ok ({ row with assignableroles := pgMkFlat (ds ++ [ri]) }
          :: post) := by
      simp [updateAddRole, hgb, hflat, arrayCat_flat_snoc,
        updateAddRole_skip g ri post hpost]
    rw [h1]
    rfl
  have hfind : (pre ++
      { row with assignableroles := pgMkFlat (ds ++ [ri]) } :: post).find?
        (fun r => r.serverid == g &&
          pgContains r.assignableroles (pgMkFlat [ri])) =
      some { row with assignableroles := pgMkFlat (ds ++ [ri]) } := by
    rw [find?_append_of_all_neg _ pre _ hpred]
    exact List.find?_cons_of_pos _ (by simp [hgb])
  refine ⟨?_, ?_, ?_, ?_⟩
  · rw [add_assignable_role_eq]
    show (match updateAddRole g ri (pre ++ row :: post) with
      | Except.error e => Except.error e
      | Except.ok rows =>
        Except.ok ({ moderation := mods, servers := rows } : DB)) = _
    rw [hrow]
  · rw [is_role_assignable_eq]
    show Except.ok (((pre ++
        { row with assignableroles := pgMkFlat (ds ++ [ri]) } :: post).find?
          fun r => r.serverid == g &&
            pgContains r.assignableroles (pgMkFlat [ri])).isSome) = _
    rw [hfind]
    rfl
  · rw [remove_assignable_role_eq]
    show (match (pre ++
        { row with assignableroles := pgMkFlat (ds ++ [ri]) } :: post).find?
          (fun r => r.serverid == g &&
            pgContains r.assignableroles (pgMkFlat [ri])) with
      | none => Except.error DbErr.pyAttributeError
      | some r =>
        match pyListRemove r.assignableroles ri with
        | Except.error e => Except.error e
        | Except.ok ys => Except.ok (setRoles ⟨mods, pre ++
            { row with assignableroles := pgMkFlat (ds ++ [ri]) } :: post⟩
              g (pgWrap ys))) = _
    rw [hfind]
    show (match pyListRemove (pgMkFlat (ds ++ [ri])) ri with
      | Except.error e => Except.error e
      | Except.ok ys => Except.ok (setRoles ⟨mods, pre ++
          { row with assignableroles := pgMkFlat (ds ++ [ri]) } :: post⟩
            g (pgWrap ys))) = _
    rw [pyListRemove_flat_snoc ds ri hnot]
    show Except.ok (setRoles ⟨mods, pre ++
        { row with assignableroles := pgMkFlat (ds ++ [ri]) } :: post⟩
          g (pgWrap ds)) = _
    unfold setRoles
    simp only [List.map_append, List.map_cons,
      map_update_skip g (pgWrap ds) pre hpre,
      map_update_skip g (pgWrap ds) post hpost]
    simp [hgb]
  · rw [is_role_assignable_eq]
    show Except.ok (((pre ++
        { row with assignableroles := pgWrap ds } :: post).find?
          fun r => r.serverid == g &&
            pgContains r.assignableroles (pgMkFlat [ri])).isSome) = _
    rw [find?_append_of_all_neg _ pre _ hpred]
    rw [List.find?_cons_of_neg _ (by simp [hgb, hnot'])]
    rw [List.find?_eq_none.2 fun s hs => by simp [hpost s hs]]
    rfl

/-- Witness for the amended C6 at a concrete input: a single-guild store,
guild 2 with role array `{9}`, adding and then removing role 4. -/
theorem add_then_remove_role_roundtrip_witness :
    add_assignable_role ⟨[], [⟨2, "-", pgMkFlat [9], [], [], [], []⟩]⟩ 2 4 =
      Except.ok ⟨[], [⟨2, "-", pgMkFlat ([9] ++ [4]), [], [], [], []⟩]⟩ ∧
    is_role_assignable
        ⟨[], [⟨2, "-", pgMkFlat ([9] ++ [4]), [], [], [], []⟩]⟩ 2 4 =
      Except.ok true ∧
    remove_assignable_role
        ⟨[], [⟨2, "-", pgMkFlat ([9] ++ [4]), [], [], [], []⟩]⟩ 2 4 =
      Except.ok ⟨[], [⟨2, "-", pgWrap [9], [], [], [], []⟩]⟩ ∧
    is_role_assignable ⟨[], [⟨2, "-", pgWrap [9], [], [], [], []⟩]⟩ 2 4 =
      Except.ok false :=
  add_then_remove_role_roundtrip [] [] []
    ⟨2, "-", pgMkFlat [9], [], [], [], []⟩ 2 4 [9]
    rfl (by simp) (by simp) rfl (by decide)

/-- Claim C7 (confirmed): for a guild with no stored row,
`is_role_assignable` answers false for every role (`fetchrow` matches no row
and `True if row else False` yields `False`) and `get_assignable_roles`
returns the absent result (`fetchval` of no row is `None`); both return
normally, raising no error. -/
theorem unknown_guild_queries_safe (db : DB) (guild_id role_id : Int)
    (h : ∀ r ∈ db.servers, (r.serverid == guild_id) = false) :
    is_role_assignable db guild_id role_id = Except.ok false ∧
    get_assignable_roles db guild_id = Except.ok none := by
  have h1 : db.servers.find? (fun r =>
      r.serverid == guild_id &&
        pgContains r.assignableroles (pgMkFlat [role_id])) = none :=
    List.find?_eq_none.2 fun x hx => by simp [h x hx]
  have h2 : db.servers.find? (fun r => r.serverid == guild_id) = none :=
    List.find?_eq_none.2 fun x hx => by simp [h x hx]
  constructor
  · rw [is_role_assignable_eq, h1]
    rfl
  · show Except.ok ((db.servers.find? fun r =>
        r.serverid == guild_id).map fun r => r.assignableroles) = _
    rw [h2]
    rfl

/-- Witness for C7 at a concrete input: the store holding only guild 1,
queried for the unknown guild 42. -/
theorem unknown_guild_queries_safe_witness :
    is_role_assignable dbRoles57 42 5 = Except.ok false ∧
    get_assignable_roles dbRoles57 42 = Except.ok none :=
  unknown_guild_queries_safe dbRoles57 42 5 (by decide)

/-- Claim C8 (confirmed, set_prefix modelled from the spec): a successful
`set_prefix(g, p)` — success signalled by the Bool the caller tests — makes
the bulk prefix query `get_server_prefix` map `g` to `p`; and on a guild
with no row, `set_prefix` returns the distinct failure signal `false` with
the store unchanged rather than success. -/
theorem set_prefix_roundtrip (db db' : DB) (guild_id : Int) (p : String) :
    ( set_prefix db guild_id p = Except.ok (db', true) →
      ( get_server_prefix db').lookup guild_id = some p) ∧
    ((db.servers.any fun r => r.serverid == guild_id) = false →
      set_prefix db guild_id p = Except.ok (db, false)) := by
  constructor
  · intro hset
    unfold set_prefix at hset
    by_cases hc : (db.servers.any fun r => r.serverid == guild_id) = true
    · rw [if_pos hc] at hset
      have h1 := Except.ok.inj hset
      have hdb : db' = { db with servers := db.servers.map fun r =>
          if r.serverid == guild_id then { r with pfx := p } else r } :=
        (congrArg Prod.fst h1).symm
      subst hdb
      exact lookup_pfx_of_any guild_id p db.servers hc
    · rw [if_neg hc] at hset
      have h1 := Except.ok.inj hset
      have hb : (false : Bool) = true := congrArg Prod.snd h1
      exact absurd hb (by simp)
  · intro h
    unfold set_prefix
    rw [if_neg (by simp [h])]

/-- Witness for C8 at concrete inputs: setting the prefix of guild 1 of the
one-guild store succeeds and the bulk query then maps guild 1 to the new
prefix; setting the prefix of the unknown guild 9 signals the distinct
failure value. -/
theorem set_prefix_roundtrip_witness :
    ( get_server_prefix
        ⟨[], [⟨1, "!!", pgMkFlat [5, 7], [], [], [], []⟩]⟩).lookup 1 =
      some "!!" ∧
    set_prefix dbRoles57 9 "!!" = Except.ok (dbRoles57, false) :=
  ⟨(set_prefix_roundtrip dbRoles57
      ⟨[], [⟨1, "!!", pgMkFlat [5, 7], [], [], [], []⟩]⟩ 1 "!!").1 rfl,
   (set_prefix_roundtrip dbRoles57 dbRoles57 9 "!!").2 (by decide)⟩

/-- Claim C9 (confirmed): `parse_record` is a total pure function on row
handles: a row handle yields the ordered tuple of its column values, a
non-row handle (`None`) yields the absent result, and no other outcome
exists. -/
theorem parse_record_total (record : Option Record) :
    (∀ r, record = some r → parse_record record = some (Record.values r)) ∧
    (record = none → parse_record record = none) := by
  constructor
  · intro r hr
    subst hr
    rfl
  · intro hr
    subst hr
    rfl

/-- Witness for C9 at a concrete input: a two-column row and the null
handle. -/
theorem parse_record_total_witness :
    parse_record (some ⟨[("serverid", SqlParam.pint 1),
        ("prefix", SqlParam.pstr "-")]⟩) =
      some (Record.values ⟨[("serverid", SqlParam.pint 1),
        ("prefix", SqlParam.pstr "-")]⟩) ∧
    parse_record (none : Option Record) = none :=
  ⟨(parse_record_total (some ⟨[("serverid", SqlParam.pint 1),
      ("prefix", SqlParam.pstr "-")]⟩)).1 _ rfl,
   (parse_record_total (none : Option Record)).2 rfl⟩

/-- Claim C10 (confirmed): for a guild with no stored row,
`add_assignable_role` is a silent no-op: the UPDATE matches no row, so the
call succeeds and returns the store unchanged — no error, no new row, no
modified row. -/
theorem add_assignable_role_unknown_guild_noop (db : DB)
    (guild_id role_id : Int)
    (h : ∀ r ∈ db.servers, (r.serverid == guild_id) = false) :
    add_assignable_role db guild_id role_id = Except.ok db := by
  rw [add_assignable_role_eq, updateAddRole_skip guild_id role_id db.servers h]

/-- Witness for C10 at a concrete input: the one-guild store and the unknown
guild 42. -/
theorem add_assignable_role_unknown_guild_noop_witness :
    add_assignable_role dbRoles57 42 5 = Except.ok dbRoles57 :=
  add_assignable_role_unknown_guild_noop dbRoles57 42 5 (by decide)

end YinBot
